import Mathlib

/-!
Verification development for the MyValueStorm Vue frontend core:
the session lifecycle state machine, the Vuex session store, and the
progress-polling loop.

The definitions below are a shallow embedding of the JavaScript source:

* `Status`, `Session`, `ProgressUpdate`, `mergeSession` — the tracked
  research session and the object-spread merge committed by the poll tick
  (`ResearchView.vue`, `SET_CURRENT_RESEARCH` with a spread of the current
  session and the fetched data).
* `StoreState` and the `SET_*` mutations — the Vuex store module
  (state, mutations) bundled with `HomeView.vue`.
* `fetchResearchTopics`, `startResearch`, `fetchResearchResults` — the
  store actions, with the network outcome passed in explicitly as a
  `FetchOutcome` (the try/catch/finally structure is translated directly).
* `PollerState`, `PollEvent`, `pollStep`, `pollRun` — a small-step
  event-loop semantics of `startProgressPolling` in `ResearchView.vue`:
  a tick of the 3-second interval runs the guard and, unless the tracked
  session is already `completed`, issues a progress fetch; the fetch
  resolves later (a separate event) and commits the merged session;
  `clearInterval` is the `cancel` event.
* `HttpRequest` and the request constructors — what each call site in the
  source configures on its HTTP request: the axios instance of the api
  service module configures a 30000 ms timeout and JSON headers, while the
  store actions use the global axios object and the views use bare `fetch`,
  neither of which configures a timeout or these headers.
-/

/-- Server-authoritative research status (`pending`, `in_progress`,
`completed`, `failed`). -/
inductive Status
  | pending
  | in_progress
  | completed
  | failed
deriving DecidableEq, Repr

/-- A status is terminal when it is `completed` or `failed`. -/
def Status.isTerminal : Status → Bool
  | .completed => true
  | .failed => true
  | _ => false

/-- The tracked research session, as stored in `currentResearch`. -/
structure Session where
  id : String
  topic : String
  depth : Int
  status : Status
  progress : Nat
  startTime : String
  completedTime : Option String
deriving DecidableEq, Repr

/-- A poll response body: a partial `Session`. A field is `none` when the
corresponding key is absent from the fetched JSON object. -/
structure ProgressUpdate where
  id : Option String := none
  topic : Option String := none
  depth : Option Int := none
  status : Option Status := none
  progress : Option Nat := none
  startTime : Option String := none
  completedTime : Option String := none
deriving DecidableEq, Repr

/-- The object-spread merge `\x7b ...this.currentResearch, ...data \x7d`
committed by the poll tick via `SET_CURRENT_RESEARCH`: keys present in the
update override, absent keys keep the tracked session's value. -/
def mergeSession (s : Session) (u : ProgressUpdate) : Session where
  id := u.id.getD s.id
  topic := u.topic.getD s.topic
  depth := u.depth.getD s.depth
  status := u.status.getD s.status
  progress := u.progress.getD s.progress
  startTime := u.startTime.getD s.startTime
  completedTime := match u.completedTime with
    | some c => some c
    | none => s.completedTime

/-- A completed-result summary as listed by `/research/results`. -/
structure ResultSummary where
  id : String
  topic : String
  summary : String
  completedTime : String
deriving DecidableEq, Repr

/-- The Vuex store state: topics, the tracked session, result summaries,
the loading flag and the shared error field. -/
structure StoreState where
  researchTopics : List String
  currentResearch : Option Session
  researchResults : List ResultSummary
  loading : Bool
  error : Option String
deriving DecidableEq, Repr

/-- Mutation `SET_RESEARCH_TOPICS`. -/
def SET_RESEARCH_TOPICS (s : StoreState) (topics : List String) : StoreState :=
  { s with researchTopics := topics }

/-- Mutation `SET_CURRENT_RESEARCH`: unconditional replacement of the
tracked session. -/
def SET_CURRENT_RESEARCH (s : StoreState) (research : Option Session) : StoreState :=
  { s with currentResearch := research }

/-- Mutation `SET_RESEARCH_RESULTS`. -/
def SET_RESEARCH_RESULTS (s : StoreState) (results : List ResultSummary) : StoreState :=
  { s with researchResults := results }

/-- Mutation `SET_LOADING`. -/
def SET_LOADING (s : StoreState) (isLoading : Bool) : StoreState :=
  { s with loading := isLoading }

/-- Mutation `SET_ERROR`. -/
def SET_ERROR (s : StoreState) (e : Option String) : StoreState :=
  { s with error := e }

/-- Outcome of an awaited HTTP call: the resolved response data, or the
thrown error. -/
inductive FetchOutcome (α : Type)
  | success (data : α)
  | failure (err : String)
deriving DecidableEq, Repr

/-- Store action `fetchResearchTopics`: set loading, await the GET; on
success replace the topics and clear the error, on failure set the fixed
error message; the `finally` block clears the loading flag. -/
def fetchResearchTopics (s : StoreState) (o : FetchOutcome (List String)) : StoreState :=
  let s1 := SET_LOADING s true
  let s2 :=
    match o with
    | .success data => SET_ERROR (SET_RESEARCH_TOPICS s1 data) none
    | .failure _ => SET_ERROR s1 (some "Failed to fetch research topics")
  SET_LOADING s2 false

/-- Store action `fetchResearchResults`: same shape as the topics load,
over the result-summary collection. -/
def fetchResearchResults (s : StoreState) (o : FetchOutcome (List ResultSummary)) : StoreState :=
  let s1 := SET_LOADING s true
  let s2 :=
    match o with
    | .success data => SET_ERROR (SET_RESEARCH_RESULTS s1 data) none
    | .failure _ => SET_ERROR s1 (some "Failed to fetch research results")
  SET_LOADING s2 false

/-- Store action `startResearch`: set loading, await the POST; on success
commit the returned descriptor as the tracked session, clear the error and
return the descriptor; on failure set the fixed error message and rethrow
the caught error; the `finally` block clears the loading flag. -/
def startResearch (s : StoreState) (o : FetchOutcome Session) :
    StoreState × Except String Session :=
  let s1 := SET_LOADING s true
  match o with
  | .success data =>
      (SET_LOADING (SET_ERROR (SET_CURRENT_RESEARCH s1 (some data)) none) false,
       Except.ok data)
  | .failure err =>
      (SET_LOADING (SET_ERROR s1 (some "Failed to start research")) false,
       Except.error err)

/-- State of one poller created by `startProgressPolling` together with the
store slot it mutates: whether its interval handle is still scheduled,
how many progress fetches are in flight (issued but not yet resolved),
the tracked session, and how many fetches it has issued in total. -/
structure PollerState where
  intervalLive : Bool
  pending : Nat
  current : Session
  fetches : Nat
deriving DecidableEq, Repr

/-- Events of the single-threaded event loop driving the poller:
the interval fires a tick, an in-flight progress fetch resolves with data
or rejects, or `clearInterval` is called (component teardown or restart). -/
inductive PollEvent
  | tickFire
  | fetchResolve (data : ProgressUpdate)
  | fetchFail
  | cancel
deriving DecidableEq, Repr

/-- One event-loop step of `startProgressPolling`.

`tickFire` only occurs while the interval handle is live. The tick callback
first runs the guard: if the tracked session's status is `completed` it
clears the interval and returns without fetching; otherwise it issues a
progress fetch (which stays pending until a later `fetchResolve` or
`fetchFail` event). `fetchResolve` commits
`SET_CURRENT_RESEARCH (\x7b ...current, ...data \x7d)` unconditionally and
clears the interval exactly when the fetched `status` is `completed`.
`fetchFail` is the catch branch: log only. `cancel` is `clearInterval`:
it unschedules future ticks but does not touch in-flight fetches.
An event whose enabling condition fails (a tick of a cleared interval, a
resolution with nothing in flight) cannot occur; it is modelled as a
no-op step. -/
def pollStep (s : PollerState) (e : PollEvent) : PollerState :=
  match e with
  | .tickFire =>
      if s.intervalLive then
        if s.current.status = Status.completed then
          { s with intervalLive := false }
        else
          { s with pending := s.pending + 1, fetches := s.fetches + 1 }
      else s
  | .fetchResolve data =>
      if 0 < s.pending then
        { s with
          pending := s.pending - 1
          current := mergeSession s.current data
          intervalLive :=
            if data.status = some Status.completed then false else s.intervalLive }
      else s
  | .fetchFail =>
      if 0 < s.pending then { s with pending := s.pending - 1 } else s
  | .cancel => { s with intervalLive := false }

/-- Run the poller through a list of event-loop events in order. -/
def pollRun (s : PollerState) : List PollEvent → PollerState
  | [] => s
  | e :: es => pollRun (pollStep s e) es

/-- Body of the start request: `\x7btopic, depth\x7d`. -/
structure StartBody where
  topic : String
  depth : Int
deriving DecidableEq, Repr

/-- What a call site configures on an HTTP request: method, URL, an
explicit timeout (in milliseconds) if one is configured, whether the
`Content-Type: application/json` and `Accept: application/json` headers
are configured, and the start body if any. -/
structure HttpRequest where
  method : String
  url : String
  timeoutMs : Option Nat
  contentTypeJson : Bool
  acceptJson : Bool
  body : Option StartBody
deriving DecidableEq, Repr

/-- A GET on the global axios object (`axios.get`), as used by the store
actions: no timeout and no JSON headers are configured at the call site. -/
def axiosGlobalGet (url : String) : HttpRequest :=
  { method := "GET", url := url, timeoutMs := none,
    contentTypeJson := false, acceptJson := false, body := none }

/-- A POST on the global axios object (`axios.post`), as used by the
`startResearch` store action. -/
def axiosGlobalPost (url : String) (b : StartBody) : HttpRequest :=
  { method := "POST", url := url, timeoutMs := none,
    contentTypeJson := false, acceptJson := false, body := some b }

/-- A bare `fetch(url)`, as used by the poll tick and the result view:
no timeout, no headers configured. -/
def fetchGet (url : String) : HttpRequest :=
  { method := "GET", url := url, timeoutMs := none,
    contentTypeJson := false, acceptJson := false, body := none }

/-- A request through the api service module's axios instance
(`axios.create` with `timeout: 30000` and the two JSON headers). -/
def apiRequest (method url : String) (b : Option StartBody) : HttpRequest :=
  { method := method, url := url, timeoutMs := some 30000,
    contentTypeJson := true, acceptJson := true, body := b }

/-- `researchApi.getTopics` in the api service module. -/
def researchApi_getTopics : HttpRequest :=
  apiRequest "GET" "/research/topics" none

/-- `researchApi.startResearch` in the api service module. -/
def researchApi_startResearch (b : StartBody) : HttpRequest :=
  apiRequest "POST" "/research/start" (some b)

/-- `researchApi.getProgress` in the api service module. -/
def researchApi_getProgress (id : String) : HttpRequest :=
  apiRequest "GET" ("/research/progress/" ++ id) none

/-- `researchApi.getResults` in the api service module. -/
def researchApi_getResults : HttpRequest :=
  apiRequest "GET" "/research/results" none

/-- `researchApi.getResult` in the api service module. -/
def researchApi_getResult (id : String) : HttpRequest :=
  apiRequest "GET" ("/research/results/" ++ id) none

/-- The request issued by the `fetchResearchTopics` store action:
`axios.get` on the global axios object. -/
def fetchTopicsRequest : HttpRequest :=
  axiosGlobalGet "/api/research/topics"

/-- The request issued by the `startResearch` store action:
`axios.post` on the global axios object. -/
def startResearchRequest (b : StartBody) : HttpRequest :=
  axiosGlobalPost "/api/research/start" b

/-- The request issued by one poll tick in `startProgressPolling`:
a bare `fetch`. -/
def pollProgressRequest (id : String) : HttpRequest :=
  fetchGet ("/api/research/progress/" ++ id)

/-- The request issued by the `fetchResearchResults` store action:
`axios.get` on the global axios object. -/
def fetchResultsRequest : HttpRequest :=
  axiosGlobalGet "/api/research/results"

/-- The request issued by `viewResult` in the results view: a bare
`fetch`. -/
def viewResultRequest (id : String) : HttpRequest :=
  fetchGet ("/api/research/results/" ++ id)

/-- The five HTTP requests the core actually issues (topics load, start,
progress poll, results load, result fetch), at their call sites in the
store and views. -/
def coreIssuedRequests (b : StartBody) (sid rid : String) : List HttpRequest :=
  [fetchTopicsRequest, startResearchRequest b, pollProgressRequest sid,
   fetchResultsRequest, viewResultRequest rid]

/-- The five endpoints as exposed by the api service module's wrapper. -/
def researchApiRequests (b : StartBody) (sid rid : String) : List HttpRequest :=
  [researchApi_getTopics, researchApi_startResearch b, researchApi_getProgress sid,
   researchApi_getResults, researchApi_getResult rid]

/-- Local state of the research view relevant to `startResearch`. -/
structure ViewState where
  topic : String
  depth : Int
  loading : Bool
  error : Option String
  polling : Bool
deriving DecidableEq, Repr

/-- The `startResearch` method of the research view: return at once when
the topic is empty (JS falsiness of the string); otherwise set loading,
clear the local error, dispatch the `startResearch` store action with
`\x7btopic, depth\x7d` (issuing the POST), start polling on success, set
the local error message on failure, and clear loading in `finally`.
The third component is the list of HTTP requests the call issues. -/
def ResearchView_startResearch (v : ViewState) (store : StoreState)
    (o : FetchOutcome Session) : ViewState × StoreState × List HttpRequest :=
  if v.topic = "" then (v, store, [])
  else
    let v1 := { v with loading := true, error := none }
    let body : StartBody := { topic := v.topic, depth := v.depth }
    let res := startResearch store o
    match res.2 with
    | Except.ok _ =>
        ({ v1 with loading := false, polling := true }, res.1,
         [startResearchRequest body])
    | Except.error _ =>
        ({ { v1 with error := some "Failed to start research. Please try again." }
            with loading := false }, res.1,
         [startResearchRequest body])

/-- Example session fixture: the end-to-end scenario session after the
first poll (`in_progress`, 40 percent). -/
def sessionInProgress : Session :=
  { id := "abc123", topic := "quantum computing", depth := 2,
    status := Status.in_progress, progress := 40,
    startTime := "2025-01-01T00:00:00Z", completedTime := none }

/-- Example session fixture with a `failed` status, as a poll tick can
produce by merging a fetched `failed` status. -/
def sessionFailed : Session :=
  { sessionInProgress with status := Status.failed, progress := 60 }

/-- Example session fixture with a `completed` status. -/
def sessionCompleted : Session :=
  { id := "abc123", topic := "quantum computing", depth := 2,
    status := Status.completed, progress := 100,
    startTime := "2025-01-01T00:00:00Z",
    completedTime := some "2025-01-01T00:00:00Z" }

/-- Initial store state fixture (the Vuex module's `state` object). -/
def storeInitial : StoreState :=
  { researchTopics := [], currentResearch := none, researchResults := [],
    loading := false, error := none }

/-- Poller start state for the cadence scenario: session freshly created
(`pending`), interval scheduled, nothing in flight, no fetch issued yet. -/
def c4Start : PollerState :=
  { intervalLive := true, pending := 0,
    current := { id := "abc123", topic := "quantum computing", depth := 2,
                 status := Status.pending, progress := 0,
                 startTime := "2025-01-01T00:00:00Z", completedTime := none },
    fetches := 0 }

/-- The mock-server scenario of the cadence test: three ticks whose
progress fetches return `in_progress`, `in_progress`, `completed`, each
response arriving before the next tick fires. -/
def c4Scenario : List PollEvent :=
  [PollEvent.tickFire,
   PollEvent.fetchResolve { status := some Status.in_progress, progress := some 20 },
   PollEvent.tickFire,
   PollEvent.fetchResolve { status := some Status.in_progress, progress := some 60 },
   PollEvent.tickFire,
   PollEvent.fetchResolve { status := some Status.completed, progress := some 100,
                            completedTime := some "2025-01-01T00:00:00Z" }]

/-- View-state fixture with an empty topic. -/
def viewEmptyTopic : ViewState :=
  { topic := "", depth := 2, loading := false, error := none, polling := false }

/-- View-state fixture with a non-empty topic and the out-of-range depth
5 (the valid set is 1, 2, 3). -/
def viewDepthFive : ViewState :=
  { topic := "quantum computing", depth := 5, loading := false, error := none,
    polling := false }

/-- A step of a poller whose interval handle is already cleared issues no
fetch and leaves the handle cleared: no event re-arms a cleared interval. -/
theorem pollStep_dead (s : PollerState) (e : PollEvent)
    (h : s.intervalLive = false) :
    (pollStep s e).fetches = s.fetches ∧ (pollStep s e).intervalLive = false := by
  cases e with
  | tickFire => simp [pollStep, h]
  | fetchResolve data =>
      by_cases hp : 0 < s.pending <;> simp [pollStep, hp, h]
  | fetchFail =>
      by_cases hp : 0 < s.pending <;> simp [pollStep, hp, h]
  | cancel => simp [pollStep, h]

/-- Running any events from a poller whose interval handle is cleared
never issues another fetch. -/
theorem pollRun_dead (s : PollerState) (es : List PollEvent)
    (h : s.intervalLive = false) :
    (pollRun s es).fetches = s.fetches := by
  induction es generalizing s with
  | nil => rfl
  | cons e es ih =>
      have hd := pollStep_dead s e h
      calc (pollRun (pollStep s e) es).fetches
          = (pollStep s e).fetches := ih _ hd.2
        _ = s.fetches := hd.1

/-- Event lists compose: running a concatenation runs the pieces in
order. -/
theorem pollRun_append (s : PollerState) (es1 es2 : List PollEvent) :
    pollRun s (es1 ++ es2) = pollRun (pollRun s es1) es2 := by
  induction es1 generalizing s with
  | nil => rfl
  | cons e es ih => simp only [List.cons_append, pollRun]; exact ih _

/-- One step from a `completed` session with no fetch in flight leaves the
session untouched and nothing in flight: the tick guard returns before
fetching, and there is no pending resolution to commit. -/
theorem pollStep_completed_frozen (s : PollerState) (e : PollEvent)
    (hst : s.current.status = Status.completed) (hp : s.pending = 0) :
    (pollStep s e).current = s.current ∧ (pollStep s e).pending = 0 := by
  cases e with
  | tickFire => by_cases hl : s.intervalLive <;> simp [pollStep, hl, hst, hp]
  | fetchResolve data => simp [pollStep, hp]
  | fetchFail => simp [pollStep, hp]
  | cancel => simp [pollStep, hp]

/-- Any run from a `completed` session with no fetch in flight leaves the
session untouched and nothing in flight. -/
theorem pollRun_completed_frozen (s : PollerState) (es : List PollEvent)
    (hst : s.current.status = Status.completed) (hp : s.pending = 0) :
    (pollRun s es).current = s.current ∧ (pollRun s es).pending = 0 := by
  induction es generalizing s with
  | nil => exact ⟨rfl, hp⟩
  | cons e es ih =>
      have hs := pollStep_completed_frozen s e hst hp
      have hrec := ih (pollStep s e) (by rw [hs.1]; exact hst) hs.2
      refine ⟨?_, hrec.2⟩
      show (pollRun (pollStep s e) es).current = s.current
      rw [hrec.1, hs.1]

/-- Claim C1 counterexample: a tracked session whose status is the
terminal `failed` is not protected by the store. From a `failed` session
with the interval live, the next poll tick fetches and its resolution with
an `in_progress` update changes the tracked session — the update is not a
no-op, falsifying the claim for the `failed` half of "terminal". -/
theorem c1_failed_session_still_updated :
    sessionFailed.status.isTerminal = true ∧
    (pollRun
        { intervalLive := true, pending := 0, current := sessionFailed,
          fetches := 0 }
        [PollEvent.tickFire,
         PollEvent.fetchResolve
           { status := some Status.in_progress, progress := some 70 }]).current
      ≠ sessionFailed := by
  exact ⟨rfl, by decide⟩

/-- Claim C1 (amended): once the tracked session's status is `completed`
and no progress fetch is in flight, every subsequent poll-loop event
leaves the tracked session unchanged — the tick's guard returns before
fetching. (A `failed` session is not protected, and an in-flight fetch
still commits.) -/
theorem c1_completed_session_frozen (s : PollerState) (es : List PollEvent)
    (hst : s.current.status = Status.completed) (hp : s.pending = 0) :
    (pollRun s es).current = s.current :=
  (pollRun_completed_frozen s es hst hp).1

/-- Claim C1 witness: the amended theorem applied to the completed example
session and a concrete later event list (a tick, a stray resolution, a
cancel). -/
theorem c1_witness :
    (pollRun
        { intervalLive := true, pending := 0, current := sessionCompleted,
          fetches := 0 }
        [PollEvent.tickFire,
         PollEvent.fetchResolve { status := some Status.in_progress },
         PollEvent.cancel]).current = sessionCompleted :=
  c1_completed_session_frozen
    { intervalLive := true, pending := 0, current := sessionCompleted,
      fetches := 0 }
    [PollEvent.tickFire,
     PollEvent.fetchResolve { status := some Status.in_progress },
     PollEvent.cancel]
    rfl rfl

/-- Claim C2 counterexample: a progress fetch already in flight when
`clearInterval` runs still mutates the store when its callback resolves.
A tick issues a fetch, the poller is cancelled, and the in-flight fetch
then resolves: the tracked session changes after cancellation. -/
theorem c2_inflight_fetch_survives_cancel :
    (pollRun
        { intervalLive := true, pending := 0, current := sessionInProgress,
          fetches := 0 }
        [PollEvent.tickFire, PollEvent.cancel,
         PollEvent.fetchResolve
           { status := some Status.in_progress, progress := some 80 }]).current
      ≠ sessionInProgress := by
  decide

/-- Claim C2 (amended): after `clearInterval` returns, no further tick
fires and no new progress fetch is ever issued by that poller; a fetch
already in flight at cancellation, however, still applies its update
when it resolves. -/
theorem c2_cancel_stops_new_fetches (s : PollerState) (es : List PollEvent) :
    (pollRun (pollStep s PollEvent.cancel) es).fetches = s.fetches := by
  exact pollRun_dead (pollStep s PollEvent.cancel) es rfl

/-- Claim C3 counterexample: a poll tick whose fetch returns the terminal
status `failed` applies the update but does not stop the polling loop:
the interval stays scheduled and the next tick issues another fetch. -/
theorem c3_failed_tick_keeps_polling :
    ((pollRun
        { intervalLive := true, pending := 0, current := sessionInProgress,
          fetches := 0 }
        [PollEvent.tickFire,
         PollEvent.fetchResolve
           { status := some Status.failed, progress := some 60 }]).current.status
        = Status.failed) ∧
    ((pollRun
        { intervalLive := true, pending := 0, current := sessionInProgress,
          fetches := 0 }
        [PollEvent.tickFire,
         PollEvent.fetchResolve
           { status := some Status.failed, progress := some 60 }]).intervalLive
        = true) ∧
    ((pollRun
        { intervalLive := true, pending := 0, current := sessionInProgress,
          fetches := 0 }
        [PollEvent.tickFire,
         PollEvent.fetchResolve
           { status := some Status.failed, progress := some 60 },
         PollEvent.tickFire]).fetches = 2) := by
  refine ⟨rfl, rfl, rfl⟩

/-- Claim C3 (amended): only a fetched `completed` status stops the
polling loop. A tick whose fetch resolves `completed` applies the merged
update and cancels the schedule, so no further fetch is ever issued; a
tick whose fetch resolves `failed` applies the merged update but leaves
the schedule live, and the next tick issues another fetch. -/
theorem c3_only_completed_stops (s : PollerState) (u : ProgressUpdate)
    (es : List PollEvent) (hp : 0 < s.pending) :
    (u.status = some Status.completed →
      (pollStep s (PollEvent.fetchResolve u)).current = mergeSession s.current u ∧
      (pollRun (pollStep s (PollEvent.fetchResolve u)) es).fetches = s.fetches) ∧
    (u.status = some Status.failed → s.intervalLive = true →
      (pollStep s (PollEvent.fetchResolve u)).current = mergeSession s.current u ∧
      (pollStep s (PollEvent.fetchResolve u)).intervalLive = true ∧
      (pollStep (pollStep s (PollEvent.fetchResolve u))
          PollEvent.tickFire).fetches = s.fetches + 1) := by
  constructor
  · intro hc
    have hdead : (pollStep s (PollEvent.fetchResolve u)).intervalLive = false := by
      simp [pollStep, hp, hc]
    refine ⟨by simp [pollStep, hp], ?_⟩
    rw [pollRun_dead _ es hdead]
    simp [pollStep, hp]
  · intro hf hl
    have hcur : (pollStep s (PollEvent.fetchResolve u)).current
        = mergeSession s.current u := by
      simp [pollStep, hp]
    have hlive : (pollStep s (PollEvent.fetchResolve u)).intervalLive = true := by
      simp [pollStep, hp, hf, hl]
    have hstatus : (mergeSession s.current u).status = Status.failed := by
      simp [mergeSession, hf]
    refine ⟨hcur, hlive, ?_⟩
    simp [pollStep, hp, hf, hl, hstatus]

/-- Claim C3 witness: the amended theorem applied with a fetch in flight,
once to a `completed` update and once to a `failed` update. -/
theorem c3_witness :
    ((pollRun
        (pollStep
          { intervalLive := true, pending := 1, current := sessionInProgress,
            fetches := 3 }
          (PollEvent.fetchResolve
            { status := some Status.completed, progress := some 100 }))
        [PollEvent.tickFire]).fetches = 3) ∧
    ((pollStep
        (pollStep
          { intervalLive := true, pending := 1, current := sessionInProgress,
            fetches := 3 }
          (PollEvent.fetchResolve { status := some Status.failed }))
        PollEvent.tickFire).fetches = 4) :=
  ⟨((c3_only_completed_stops
      { intervalLive := true, pending := 1, current := sessionInProgress,
        fetches := 3 }
      { status := some Status.completed, progress := some 100 }
      [PollEvent.tickFire] (by decide)).1 rfl).2,
   ((c3_only_completed_stops
      { intervalLive := true, pending := 1, current := sessionInProgress,
        fetches := 3 }
      { status := some Status.failed }
      [] (by decide)).2 rfl rfl).2.2⟩

/-- Claim C4: in the mock-server scenario where the first two ticks fetch
`in_progress` and the third fetches `completed`, the poller issues exactly
3 progress fetches; the third resolution cancels the schedule, so no
extension of the run by any further events issues another fetch. -/
theorem c4_exactly_three_fetches (es : List PollEvent) :
    (pollRun c4Start (c4Scenario ++ es)).fetches = 3 ∧
    (pollRun c4Start c4Scenario).intervalLive = false := by
  have h1 : (pollRun c4Start c4Scenario).intervalLive = false := rfl
  have h2 : (pollRun c4Start c4Scenario).fetches = 3 := rfl
  refine ⟨?_, h1⟩
  rw [pollRun_append, pollRun_dead _ es h1, h2]

/-- Claim C5 counterexample: depth is not validated. A call with a
non-empty topic and the out-of-range depth 5 (the valid set is 1, 2, 3)
still issues the start POST carrying that depth, instead of being rejected
before any network request. -/
theorem c5_invalid_depth_sends_request :
    (¬ (viewDepthFive.depth = 1 ∨ viewDepthFive.depth = 2 ∨
        viewDepthFive.depth = 3)) ∧
    (ResearchView_startResearch viewDepthFive storeInitial
        (FetchOutcome.success sessionInProgress)).2.2
      = [startResearchRequest { topic := "quantum computing", depth := 5 }] := by
  exact ⟨by decide, rfl⟩

/-- Claim C5 (amended): an empty topic is rejected synchronously and no
request is issued, but silently — the method returns with the view and
store unchanged and no error reported to the caller; depth is not
validated at all: whenever the topic is non-empty, the start request is
issued carrying whatever depth the view holds, valid or not. -/
theorem c5_topic_only_validation (v : ViewState) (store : StoreState)
    (o : FetchOutcome Session) :
    (v.topic = "" → ResearchView_startResearch v store o = (v, store, [])) ∧
    (v.topic ≠ "" →
      (ResearchView_startResearch v store o).2.2
        = [startResearchRequest { topic := v.topic, depth := v.depth }]) := by
  constructor
  · intro h
    simp [ResearchView_startResearch, h]
  · intro h
    cases o with
    | success data => simp [ResearchView_startResearch, h, startResearch]
    | failure err => simp [ResearchView_startResearch, h, startResearch]

/-- Claim C5 witness: the amended theorem applied to the empty-topic view
state and to the depth-5 view state with a failing outcome. -/
theorem c5_witness :
    (ResearchView_startResearch viewEmptyTopic storeInitial
        (FetchOutcome.failure "boom") = (viewEmptyTopic, storeInitial, [])) ∧
    ((ResearchView_startResearch viewDepthFive storeInitial
        (FetchOutcome.failure "boom")).2.2
      = [startResearchRequest { topic := "quantum computing", depth := 5 }]) :=
  ⟨(c5_topic_only_validation viewEmptyTopic storeInitial
      (FetchOutcome.failure "boom")).1 rfl,
   (c5_topic_only_validation viewDepthFive storeInitial
      (FetchOutcome.failure "boom")).2 (by decide)⟩

/-- Claim C6 counterexample: the topics load issued by the store action
does not go through the wrapper: it is a plain `axios.get` on the global
axios object with no 30-second timeout configured. -/
theorem c6_topics_request_bypasses_wrapper :
    fetchTopicsRequest
      ∈ coreIssuedRequests { topic := "quantum computing", depth := 2 }
          "abc123" "abc123" ∧
    fetchTopicsRequest.timeoutMs ≠ some 30000 := by
  constructor
  · simp [coreIssuedRequests]
  · decide

/-- Claim C6 (amended): the api service module's wrapper uniformly
configures the 30-second timeout and the JSON `Content-Type` / `Accept`
headers on all five endpoints — but the requests the core actually issues
(store actions on the global axios object, poll and result fetches via
bare `fetch`) bypass that wrapper and configure neither the timeout nor
those headers. -/
theorem c6_wrapper_bypassed (b : StartBody) (sid rid : String) :
    (∀ r ∈ researchApiRequests b sid rid,
      r.timeoutMs = some 30000 ∧ r.contentTypeJson = true ∧
        r.acceptJson = true) ∧
    (∀ r ∈ coreIssuedRequests b sid rid,
      r.timeoutMs = none ∧ r.contentTypeJson = false ∧
        r.acceptJson = false) := by
  constructor
  · intro r hr
    simp only [researchApiRequests, List.mem_cons, List.mem_singleton,
      List.not_mem_nil, or_false] at hr
    rcases hr with h | h | h | h | h <;> subst h <;>
      simp [researchApi_getTopics, researchApi_startResearch,
        researchApi_getProgress, researchApi_getResults,
        researchApi_getResult, apiRequest]
  · intro r hr
    simp only [coreIssuedRequests, List.mem_cons, List.mem_singleton,
      List.not_mem_nil, or_false] at hr
    rcases hr with h | h | h | h | h <;> subst h <;>
      simp [fetchTopicsRequest, startResearchRequest, pollProgressRequest,
        fetchResultsRequest, viewResultRequest, axiosGlobalGet,
        axiosGlobalPost, fetchGet]

/-- Claim C6 witness: the amended theorem applied to a concrete start
body and session identifiers, specialised to the wrapper's topics request
and to the store's actually-issued topics request. -/
theorem c6_witness :
    researchApi_getTopics.timeoutMs = some 30000 ∧
    fetchTopicsRequest.timeoutMs = none :=
  ⟨((c6_wrapper_bypassed { topic := "quantum computing", depth := 2 }
      "abc123" "abc123").1 researchApi_getTopics
      (by simp [researchApiRequests])).1,
   ((c6_wrapper_bypassed { topic := "quantum computing", depth := 2 }
      "abc123" "abc123").2 fetchTopicsRequest
      (by simp [coreIssuedRequests])).1⟩

/-- Claim C7: each load action, on failure, leaves its collection
unchanged, sets the shared error field to the documented fixed message and
clears the loading flag; on success it replaces its collection, clears the
error field and clears the loading flag. Stated as the exact resulting
store state in all four cases. -/
theorem c7_load_outcomes (s : StoreState) (topics : List String)
    (summaries : List ResultSummary) (e1 e2 : String) :
    fetchResearchTopics s (FetchOutcome.success topics)
      = { s with researchTopics := topics, error := none, loading := false } ∧
    fetchResearchTopics s (FetchOutcome.failure e1)
      = { { s with error := some "Failed to fetch research topics" }
          with loading := false } ∧
    fetchResearchResults s (FetchOutcome.success summaries)
      = { { s with researchResults := summaries, error := none }
          with loading := false } ∧
    fetchResearchResults s (FetchOutcome.failure e2)
      = { { s with error := some "Failed to fetch research results" }
          with loading := false } :=
  ⟨rfl, rfl, rfl, rfl⟩

/-- Claim C8: a failing `startResearch` sets the shared error field and
re-raises the caught error to the caller; a succeeding one sets the
tracked session to the server-returned descriptor, clears the error and
returns that descriptor. In both cases the loading flag is cleared. -/
theorem c8_start_records_and_reraises (s : StoreState) (desc : Session)
    (err : String) :
    startResearch s (FetchOutcome.success desc)
      = ({ { s with currentResearch := some desc, error := none }
           with loading := false }, Except.ok desc) ∧
    startResearch s (FetchOutcome.failure err)
      = ({ { s with error := some "Failed to start research" }
           with loading := false }, Except.error err) :=
  ⟨rfl, rfl⟩

/-- Claim C9: the poll-tick merge is a partial merge — every session field
whose key is absent from the update object keeps its value. -/
theorem c9_merge_keeps_absent_fields (s : Session) (u : ProgressUpdate) :
    (u.id = none → (mergeSession s u).id = s.id) ∧
    (u.topic = none → (mergeSession s u).topic = s.topic) ∧
    (u.depth = none → (mergeSession s u).depth = s.depth) ∧
    (u.status = none → (mergeSession s u).status = s.status) ∧
    (u.progress = none → (mergeSession s u).progress = s.progress) ∧
    (u.startTime = none → (mergeSession s u).startTime = s.startTime) ∧
    (u.completedTime = none →
      (mergeSession s u).completedTime = s.completedTime) := by
  refine ⟨?_, ?_, ?_, ?_, ?_, ?_, ?_⟩ <;> intro h <;> simp [mergeSession, h]

/-- Claim C9 witness: merging an update that carries only `status` and
`progress` preserves `id`, `topic`, `depth` and `startTime` of the example
session. -/
theorem c9_witness :
    (mergeSession sessionInProgress
        { status := some Status.completed, progress := some 100 }).id
      = sessionInProgress.id ∧
    (mergeSession sessionInProgress
        { status := some Status.completed, progress := some 100 }).topic
      = sessionInProgress.topic ∧
    (mergeSession sessionInProgress
        { status := some Status.completed, progress := some 100 }).depth
      = sessionInProgress.depth ∧
    (mergeSession sessionInProgress
        { status := some Status.completed, progress := some 100 }).startTime
      = sessionInProgress.startTime :=
  ⟨(c9_merge_keeps_absent_fields sessionInProgress
      { status := some Status.completed, progress := some 100 }).1 rfl,
   (c9_merge_keeps_absent_fields sessionInProgress
      { status := some Status.completed, progress := some 100 }).2.1 rfl,
   (c9_merge_keeps_absent_fields sessionInProgress
      { status := some Status.completed, progress := some 100 }).2.2.1 rfl,
   (c9_merge_keeps_absent_fields sessionInProgress
      { status := some Status.completed, progress := some 100 }).2.2.2.2.2.1 rfl⟩

/-- Claim C10: the two load actions never touch the tracked current
session, whatever their outcome: `currentResearch` is identical before and
after either operation. -/
theorem c10_loads_preserve_current_session (s : StoreState)
    (o1 : FetchOutcome (List String)) (o2 : FetchOutcome (List ResultSummary)) :
    (fetchResearchTopics s o1).currentResearch = s.currentResearch ∧
    (fetchResearchResults s o2).currentResearch = s.currentResearch := by
  constructor
  · cases o1 <;> rfl
  · cases o2 <;> rfl
